import Mathlib

set_option maxRecDepth 8192

/-!
Shallow embedding of `examples/data-processing/utils.py`, class `MultiFrameDecoder`
(transport-protocol reassembly of CAN frames).

A raw dataframe row is modelled as a pair `(timestamp index, Frame)`; the columns the
code touches are `BusChannel`, `ID`, `DataBytes`, `DLC`, `DataLength`, and the dataframe
index is the timestamp.  Python integers are `Nat`; a Python exception is an explicit
`Except.error`; Python's `None` return is `Option.none`.
-/

/-- One row of the raw dataframe.  Fields are the columns the decoder reads or writes. -/
structure Frame where
  BusChannel : Nat
  ID : Nat
  DataBytes : List Nat
  DLC : Nat
  DataLength : Nat
deriving DecidableEq

/-- A frame table: rows `(TimeStamp index, frame)` in dataframe order. -/
abbrev FrameTable := List (Nat × Frame)

/-- The Python exceptions the decoder can raise.
`typeError`: `construct_new_tp_frame` called with two arguments though `can_id` has no
default (utils.py line 130); `indexError`: `payload[0]` on an empty payload (line 125);
`nameError`: `frame_timestamp` referenced before assignment (line 141); `valueError`:
`int("", 16)` when `payload[5:8]` is empty (line 150). -/
inductive PyErr where
  | typeError
  | indexError
  | nameError
  | valueError
deriving DecidableEq

/-- `construct_new_tp_frame` (utils.py lines 74-83).  `new_frame = base_frame` binds the
very same object, so the `.at` updates mutate the caller's `base_frame` too; we return
the pair (returned frame, value of the `base_frame` object after the call), whose two
components are always identical.  `if can_id:` is a Python truthiness test: both `None`
and `0` are falsy. -/
def construct_new_tp_frame (base_frame : Frame) (payload_concatenated : List Nat)
    (can_id : Option Nat) : Frame × Frame :=
  let new_frame := base_frame
  let new_frame := { new_frame with DataBytes := payload_concatenated }
  let new_frame := { new_frame with DLC := 0 }
  let new_frame := { new_frame with DataLength := payload_concatenated.length }
  let new_frame :=
    match can_id with
    | none => new_frame
    | some cid => if cid = 0 then new_frame else { new_frame with ID := cid }
  (new_frame, new_frame)

/-- Number of base-16 digits of `x` (one digit for `0`); fuel-structured so that it
evaluates by kernel reduction. -/
def hex_digit_countAux : Nat → Nat → Nat
  | 0, _ => 1
  | fuel + 1, x => if x < 16 then 1 else hex_digit_countAux fuel (x / 16) + 1

/-- Number of base-16 digits of `x`. -/
def hex_digit_count (x : Nat) : Nat := hex_digit_countAux x x

/-- Length of the string produced by Python's zero-padded two-digit lowercase hex
format applied to `x`: at least two characters, more when `x ≥ 256`. -/
def format02x_len (x : Nat) : Nat := max 2 (hex_digit_count x)

/-- Value of `int(s, 16)` where `s` is the concatenation of the two-digit hex renderings
of the entries of `bs` (utils.py lines 149-150 build this string with
`"".join(...)` over the reversed PGN byte slice and parse it back in base 16). -/
def hex_concat_val (bs : List Nat) : Nat :=
  bs.foldl (fun acc x => acc * 16 ^ format02x_len x + x) 0

/-- The parameters of `combine_tp_frames` (utils.py lines 85-96).  `bam_id_hex = none`
models the empty-string default, `some b` a hex string already parsed to `b`. -/
structure TPConfig where
  SINGLE_FRAME_MASK : Nat
  FIRST_FRAME_MASK : Nat
  CONSEQ_FRAME_MASK : Nat
  SINGLE_FRAME : Nat
  FIRST_FRAME : Nat
  CONSEQ_FRAME : Nat
  first_frame_payload_start : Nat
  conseq_frame_payload_start : Nat
  bam_id_hex : Option Nat
deriving DecidableEq

/-- `bam_id = 0 if bam_id_hex == "" else int(bam_id_hex, 16)` (utils.py lines 105-108). -/
def bam_id_of (cfg : TPConfig) : Nat :=
  match cfg.bam_id_hex with
  | none => 0
  | some b => b

/-- The mutable state of the row loop (utils.py lines 115-159).  `frame_timestamp = none`
models the variable not yet being assigned; `base_frame` is threaded because
`construct_new_tp_frame` mutates it through aliasing. -/
structure TPState where
  base_frame : Frame
  frame_list : List Frame
  frame_timestamp_list : List Nat
  payload_concatenated : List Nat
  can_id : Option Nat
  frame_timestamp : Option Nat
deriving DecidableEq

/-- One iteration of the row loop (utils.py lines 123-159).

The first-frame condition on line 136 reads
`first_byte & FIRST_FRAME_MASK == FIRST_FRAME & bam_id == ""` and, because `&` binds
tighter than `==` and comparisons chain, Python evaluates it as
`(first_byte & FIRST_FRAME_MASK) == (FIRST_FRAME & bam_id)` and
`(FIRST_FRAME & bam_id) == ""`; an `int` never equals the empty string, hence the
`∧ False` in the translation below.  On line 130 the single-frame branch calls
`construct_new_tp_frame` with two arguments though the signature demands three, which
raises `TypeError` before anything else happens in that branch. -/
def tp_step (cfg : TPConfig) (st : TPState) (r : Nat × Frame) : Except PyErr TPState :=
  let bam_id := bam_id_of cfg
  let index := r.1
  let row := r.2
  let payload := row.DataBytes
  match payload with
  | [] => .error .indexError
  | first_byte :: _ =>
    let row_id := row.ID
    if first_byte &&& cfg.SINGLE_FRAME_MASK = cfg.SINGLE_FRAME then
      .error .typeError
    else if (first_byte &&& cfg.FIRST_FRAME_MASK = cfg.FIRST_FRAME &&& bam_id ∧ False)
        ∨ bam_id = row_id then
      let flushed : Except PyErr TPState :=
        if 0 < st.payload_concatenated.length then
          match st.frame_timestamp with
          | none => .error .nameError
          | some ts =>
            let p := construct_new_tp_frame st.base_frame st.payload_concatenated st.can_id
            .ok { st with
                  base_frame := p.2,
                  frame_list := st.frame_list ++ [p.1],
                  frame_timestamp_list := st.frame_timestamp_list ++ [ts] }
        else .ok st
      match flushed with
      | .error e => .error e
      | .ok st1 =>
        let st2 := { st1 with payload_concatenated := ([] : List Nat),
                              frame_timestamp := some index }
        match cfg.bam_id_hex with
        | some _ =>
          let pgn_bytes := ((payload.drop 5).take 3).reverse
          if pgn_bytes = [] then .error .valueError
          else
            let pgn := hex_concat_val pgn_bytes
            let st3 := { st2 with can_id := some ((6 <<< 26) ||| (pgn <<< 8) ||| 254) }
            .ok { st3 with payload_concatenated := payload.drop cfg.first_frame_payload_start }
        | none =>
          .ok { st2 with payload_concatenated := payload.drop cfg.first_frame_payload_start }
    else if first_byte &&& cfg.CONSEQ_FRAME_MASK = cfg.CONSEQ_FRAME then
      .ok { st with payload_concatenated :=
            st.payload_concatenated ++ payload.drop cfg.conseq_frame_payload_start }
    else
      .ok st

/-- The whole row loop over the filtered rows, threading the loop state. -/
def tp_process (cfg : TPConfig) (st : TPState) : FrameTable → Except PyErr TPState
  | [] => .ok st
  | r :: rest =>
    match tp_step cfg st r with
    | .error e => .error e
    | .ok st' => tp_process cfg st' rest

/-- The body of the response-id loop for one `res_id` (utils.py lines 103-164):
filter the full raw table for `ID ∈ [res_id, bam_id]`, `continue` when empty, take the
first filtered row as the base frame, run the row loop, then rebuild
`df_raw_combined` as (all raw rows whose `ID` is not in `res_id_list`) followed by the
synthesized rows indexed by their recorded timestamps.  Note line 163 assigns the
rebuilt table, it does not accumulate onto the previous iteration's result.

Lines 117-120 re-initialize `frame_list`, `frame_timestamp_list`,
`payload_concatenated` and `can_id` for every `res_id`, but not `frame_timestamp`:
that Python local persists across loop iterations, so it enters this body with
whatever value the previous iteration's row loop left in it (`none` while it has
never been assigned) and its final value is handed to the next iteration. -/
def combine_res_id (df_raw : FrameTable) (res_id_list : List Nat) (cfg : TPConfig)
    (res_id : Nat) (df_raw_combined : FrameTable) (frame_timestamp : Option Nat) :
    Except PyErr (FrameTable × Option Nat) :=
  let bam_id := bam_id_of cfg
  let df_raw_filter := df_raw.filter (fun r => r.2.ID == res_id || r.2.ID == bam_id)
  match df_raw_filter with
  | [] => .ok (df_raw_combined, frame_timestamp)
  | base_row :: rest =>
    let st0 : TPState :=
      { base_frame := base_row.2, frame_list := [], frame_timestamp_list := [],
        payload_concatenated := [], can_id := none, frame_timestamp := frame_timestamp }
    match tp_process cfg st0 (base_row :: rest) with
    | .error e => .error e
    | .ok stf =>
      let df_raw_tp := stf.frame_timestamp_list.zip stf.frame_list
      let df_raw_excl_tp := df_raw.filter (fun r => !(res_id_list.contains r.2.ID))
      .ok (df_raw_excl_tp ++ df_raw_tp, stf.frame_timestamp)

/-- The response-id loop (utils.py lines 103-164), threading the persistent
`frame_timestamp` local from one iteration to the next. -/
def combine_res_loop (df_raw : FrameTable) (res_id_list : List Nat) (cfg : TPConfig)
    (res_ids : List Nat) (df_raw_combined : FrameTable) (frame_timestamp : Option Nat) :
    Except PyErr FrameTable :=
  match res_ids with
  | [] => .ok df_raw_combined
  | res_id :: rest =>
    match combine_res_id df_raw res_id_list cfg res_id df_raw_combined frame_timestamp with
    | .error e => .error e
    | .ok (acc, ft) => combine_res_loop df_raw res_id_list cfg rest acc ft

/-- Stable insertion of a row into a list sorted by ascending timestamp. -/
def insertByTs {β : Type} (r : Nat × β) : List (Nat × β) → List (Nat × β)
  | [] => [r]
  | x :: xs => if r.1 ≤ x.1 then r :: x :: xs else x :: insertByTs r xs

/-- `DataFrame.sort_index()`: sort the rows by timestamp, ascending.  Modelled as a
stable sort; nothing below depends on the order of equal timestamps beyond that the
model fixes one deterministic choice. -/
def sort_index {β : Type} (t : List (Nat × β)) : List (Nat × β) :=
  t.foldr insertByTs []

/-- `combine_tp_frames` (utils.py lines 85-168).  The `groupby("BusChannel")` loop
returns from inside its first iteration and its body only ever reads `self.df_raw`, so
the function amounts to one pass over the whole table followed by `sort_index`; when
the table is empty the loop body never runs and the Python function falls off the end,
returning `None` (modelled as `none`).  The `frame_timestamp` local starts unassigned
(`none`) and then persists across the response-id iterations. -/
def combine_tp_frames (df_raw : FrameTable) (res_id_list : List Nat) (cfg : TPConfig) :
    Except PyErr (Option FrameTable) :=
  match df_raw with
  | [] => .ok none
  | _ :: _ =>
    match combine_res_loop df_raw res_id_list cfg res_id_list [] none with
    | .error e => .error e
    | .ok df_raw_combined => .ok (some (sort_index df_raw_combined))

/-- UDS preset constant (utils.py line 187). -/
def UDS_SINGLE_FRAME_MASK : Nat := 0xFF
/-- UDS preset constant (utils.py line 188). -/
def UDS_FIRST_FRAME_MASK : Nat := 0xF0
/-- UDS preset constant (utils.py line 189). -/
def UDS_CONSEQ_FRAME_MASK : Nat := 0xF0
/-- UDS preset constant (utils.py line 190). -/
def UDS_SINGLE_FRAME : Nat := 0x00
/-- UDS preset constant (utils.py line 191). -/
def UDS_FIRST_FRAME : Nat := 0x10
/-- UDS preset constant (utils.py line 192). -/
def UDS_CONSEQ_FRAME : Nat := 0x20
/-- UDS preset constant (utils.py line 193). -/
def UDS_first_frame_payload_start : Nat := 2
/-- UDS preset constant (utils.py line 194). -/
def UDS_conseq_frame_payload_start : Nat := 1

/-- The full UDS / ISO-TP parameter set passed by `combine_tp_frames_uds`. -/
def uds_cfg : TPConfig :=
  { SINGLE_FRAME_MASK := UDS_SINGLE_FRAME_MASK,
    FIRST_FRAME_MASK := UDS_FIRST_FRAME_MASK,
    CONSEQ_FRAME_MASK := UDS_CONSEQ_FRAME_MASK,
    SINGLE_FRAME := UDS_SINGLE_FRAME,
    FIRST_FRAME := UDS_FIRST_FRAME,
    CONSEQ_FRAME := UDS_CONSEQ_FRAME,
    first_frame_payload_start := UDS_first_frame_payload_start,
    conseq_frame_payload_start := UDS_conseq_frame_payload_start,
    bam_id_hex := none }

/-- `combine_tp_frames_uds` (utils.py lines 185-205). -/
def combine_tp_frames_uds (df_raw : FrameTable) (res_id_list : List Nat) :
    Except PyErr (Option FrameTable) :=
  combine_tp_frames df_raw res_id_list uds_cfg

/-- The J1939 parameter set passed by `combine_tp_frames_j1939` (utils.py 229-250). -/
def j1939_cfg (bam_id_hex : Nat) : TPConfig :=
  { SINGLE_FRAME_MASK := 0xFF,
    FIRST_FRAME_MASK := 0xFF,
    CONSEQ_FRAME_MASK := 0x00,
    SINGLE_FRAME := 0xFF,
    FIRST_FRAME := 0x20,
    CONSEQ_FRAME := 0x00,
    first_frame_payload_start := 8,
    conseq_frame_payload_start := 1,
    bam_id_hex := some bam_id_hex }

/-- `combine_tp_frames_j1939` (utils.py lines 229-250). -/
def combine_tp_frames_j1939 (df_raw : FrameTable) (res_id_list : List Nat)
    (bam_id_hex : Nat) : Except PyErr (Option FrameTable) :=
  combine_tp_frames df_raw res_id_list (j1939_cfg bam_id_hex)

/-- Ascending insertion for `Nat` (used to model the sorted group keys of `groupby`). -/
def insertNat (x : Nat) : List Nat → List Nat
  | [] => [x]
  | y :: ys => if x ≤ y then x :: y :: ys else y :: insertNat x ys

/-- Ascending sort for `Nat`. -/
def sortNat (l : List Nat) : List Nat := l.foldr insertNat []

/-- Collapse adjacent duplicates of a sorted list, giving the distinct group keys. -/
def dedupAdj : List Nat → List Nat
  | [] => []
  | [a] => [a]
  | a :: b :: rest => if a = b then dedupAdj (b :: rest) else a :: dedupAdj (b :: rest)

/-- `decode_tp_data` (utils.py lines 170-183): group the combined table by `DataLength`
(`groupby` iterates groups in ascending key order, keeping row order inside a group),
hand each group to the external decoder `df_decoder.decode_frame`, concatenate the
results in group order, and sort the final table by its timestamp index. -/
def decode_tp_data {β : Type} (df_raw_combined : FrameTable)
    (decode_frame : FrameTable → List (Nat × β)) : List (Nat × β) :=
  let keys := dedupAdj (sortNat (df_raw_combined.map (fun r => r.2.DataLength)))
  let df_phys := keys.foldl
    (fun acc len =>
      acc ++ decode_frame (df_raw_combined.filter (fun r => r.2.DataLength == len))) []
  sort_index df_phys

/-- Timestamps are non-decreasing along the table. -/
def tsSorted {β : Type} (t : List (Nat × β)) : Prop :=
  List.Pairwise (fun a b => a.1 ≤ b.1) t

/-- Membership in the result of a stable timestamp insertion. -/
theorem mem_insertByTs {β : Type} (y r : Nat × β) (l : List (Nat × β)) :
    y ∈ insertByTs r l ↔ y = r ∨ y ∈ l := by
  induction l with
  | nil => simp [insertByTs]
  | cons x xs ih =>
    simp only [insertByTs]
    split
    · simp [List.mem_cons]
    · simp [List.mem_cons, ih]
      tauto

/-- Inserting into a timestamp-sorted list keeps it sorted. -/
theorem tsSorted_insertByTs {β : Type} (r : Nat × β) (l : List (Nat × β))
    (h : tsSorted l) : tsSorted (insertByTs r l) := by
  induction l with
  | nil => simp [insertByTs, tsSorted]
  | cons x xs ih =>
    rcases List.pairwise_cons.mp h with ⟨hx, hxs⟩
    simp only [insertByTs]
    split
    next hle =>
      refine List.Pairwise.cons ?_ h
      intro y hy
      rcases List.mem_cons.mp hy with rfl | hy'
      · exact hle
      · exact le_trans hle (hx y hy')
    next hnle =>
      refine List.Pairwise.cons ?_ (ih hxs)
      intro y hy
      rcases (mem_insertByTs y r xs).mp hy with rfl | hy'
      · exact le_of_not_le hnle
      · exact hx y hy'

/-- `sort_index` always yields a table with non-decreasing timestamps. -/
theorem tsSorted_sort_index {β : Type} (t : List (Nat × β)) : tsSorted (sort_index t) := by
  induction t with
  | nil => simp [sort_index, tsSorted]
  | cons x xs ih => exact tsSorted_insertByTs x (sort_index xs) ih

/-- Whenever `combine_tp_frames` returns a table, that table is a `sort_index` image. -/
theorem combine_tp_frames_ok_some (cfg : TPConfig) (df_raw : FrameTable)
    (res_id_list : List Nat) (out : FrameTable)
    (h : combine_tp_frames df_raw res_id_list cfg = .ok (some out)) :
    ∃ acc, out = sort_index acc := by
  cases df_raw with
  | nil => simp [combine_tp_frames] at h
  | cons r rest =>
    unfold combine_tp_frames at h
    cases hl : combine_res_loop (r :: rest) res_id_list cfg res_id_list [] none with
    | error e => rw [hl] at h; simp at h
    | ok acc => rw [hl] at h; simp at h; exact ⟨acc, h.symm⟩

/-! ## Concrete inputs used by the claim theorems -/

/-- ISO-TP first frame of claim C1: payload `10 05 01 02`, watched id `0x7E8`. -/
def c1_first : Frame :=
  { BusChannel := 1, ID := 0x7E8, DataBytes := [0x10, 0x05, 0x01, 0x02], DLC := 8, DataLength := 4 }

/-- ISO-TP consecutive frame of claim C1: payload `21 03 04 05`. -/
def c1_conseq : Frame :=
  { BusChannel := 1, ID := 0x7E8, DataBytes := [0x21, 0x03, 0x04, 0x05], DLC := 8, DataLength := 4 }

/-- ISO-TP single frame of claim C2: payload `00 AA BB`. -/
def c2_single : Frame :=
  { BusChannel := 1, ID := 0x7E8, DataBytes := [0x00, 0xAA, 0xBB], DLC := 8, DataLength := 3 }

/-- J1939 BAM announce of claim C3 (arbitration id equals the broadcast id 900). -/
def c3_announce : Frame :=
  { BusChannel := 1, ID := 900, DataBytes := [0x20, 0x10, 0x00, 0xFF, 0xCA, 0x00, 0xFE, 0x01],
    DLC := 8, DataLength := 8 }

/-- J1939 data frame of claim C3 for the watched id 800: payload `01 AA BB`. -/
def c3_data : Frame :=
  { BusChannel := 1, ID := 800, DataBytes := [0x01, 0xAA, 0xBB], DLC := 8, DataLength := 3 }

/-- First BAM announce of claim C4, PGN bytes `00 FE 01` at payload bytes 5-7. -/
def c4_bam1 : Frame :=
  { BusChannel := 1, ID := 900, DataBytes := [0, 0, 0, 0, 0, 0x00, 0xFE, 0x01],
    DLC := 8, DataLength := 8 }

/-- Data frame of claim C4 for watched id 800: payload `01 11 22`. -/
def c4_data1 : Frame :=
  { BusChannel := 1, ID := 800, DataBytes := [0x01, 0x11, 0x22], DLC := 8, DataLength := 3 }

/-- Second BAM announce of claim C4, PGN bytes `00 EE 00`. -/
def c4_bam2 : Frame :=
  { BusChannel := 1, ID := 900, DataBytes := [0, 0, 0, 0, 0, 0x00, 0xEE, 0x00],
    DLC := 8, DataLength := 8 }

/-- Data frame of claim C4 for watched id 801: payload `01 33 44`. -/
def c4_data2 : Frame :=
  { BusChannel := 1, ID := 801, DataBytes := [0x01, 0x33, 0x44], DLC := 8, DataLength := 3 }

/-- Third BAM announce of claim C4, PGN bytes `00 DD 00`; it flushes 801's sequence. -/
def c4_bam3 : Frame :=
  { BusChannel := 1, ID := 900, DataBytes := [0, 0, 0, 0, 0, 0x00, 0xDD, 0x00],
    DLC := 8, DataLength := 8 }

/-- The frame synthesized for watched id 800 in claim C4's input (present when 800 is
processed alone, lost when 801 is processed after it). -/
def c4_synth_800 : Frame :=
  { BusChannel := 1, ID := 436076798, DataBytes := [0x11, 0x22], DLC := 0, DataLength := 2 }

/-- The frame synthesized for watched id 801 in claim C4's input. -/
def c4_synth_801 : Frame :=
  { BusChannel := 1, ID := 418251006, DataBytes := [0x33, 0x44], DLC := 0, DataLength := 2 }

/-- ISO-TP single frame of claim C5: payload `00 12`. -/
def c5_single : Frame :=
  { BusChannel := 1, ID := 0x7E8, DataBytes := [0x00, 0x12], DLC := 8, DataLength := 2 }

/-- Watched-id frame of claim C5 whose first byte `30` matches no ISO-TP tag. -/
def c5_unmatched : Frame :=
  { BusChannel := 1, ID := 0x7E8, DataBytes := [0x30, 0x01, 0x02], DLC := 8, DataLength := 3 }

/-- Watched-id frame of claim C6 whose first byte `05` has high nibble `0`. -/
def c6_frame : Frame :=
  { BusChannel := 1, ID := 0x7E8, DataBytes := [0x05, 0x01, 0x02], DLC := 8, DataLength := 3 }

/-- J1939 BAM announce of claim C7 with PGN bytes `00 FE 01` at payload bytes 5-7. -/
def c7_announce : Frame :=
  { BusChannel := 1, ID := 900, DataBytes := [0, 0, 0, 0, 0, 0x00, 0xFE, 0x01],
    DLC := 8, DataLength := 8 }

/-- J1939 data frame of claim C7 for watched id 800: payload `01 09 09`. -/
def c7_data : Frame :=
  { BusChannel := 1, ID := 800, DataBytes := [0x01, 0x09, 0x09], DLC := 8, DataLength := 3 }

/-- The frame claim C7 expects: reconstructed 29-bit id, payload `09 09`. -/
def c7_synth : Frame :=
  { BusChannel := 1, ID := (6 <<< 26) ||| (0x01FE00 <<< 8) ||| 254,
    DataBytes := [0x09, 0x09], DLC := 0, DataLength := 2 }

/-- Frame of claim C8 whose arbitration id `0x99` is not watched. -/
def c8_unrelated : Frame :=
  { BusChannel := 1, ID := 0x99, DataBytes := [1, 2, 3], DLC := 8, DataLength := 3 }

/-- Watched-id frame of the C9 witness, matching no ISO-TP tag. -/
def c9w_frame : Frame :=
  { BusChannel := 1, ID := 2024, DataBytes := [0x30, 0x01], DLC := 8, DataLength := 2 }

/-- Unrelated frame of the C9 witness. -/
def c9w_unrel : Frame :=
  { BusChannel := 1, ID := 9, DataBytes := [1], DLC := 8, DataLength := 1 }

/-- Template frame of the C10 counterexample. -/
def c10_base : Frame :=
  { BusChannel := 1, ID := 5, DataBytes := [9], DLC := 8, DataLength := 1 }

/-! ## Claim theorems -/

/-- C1.  The claim says a first frame `10 05 01 02` followed by a consecutive frame
`21 03 04 05` on a watched identifier yields one synthesized frame with payload
`01 02 03 04 05` at the first frame's timestamp.  The code instead returns an empty
table: the first-frame condition of utils.py line 136 chain-compares
`FIRST_FRAME & bam_id` with the empty string and therefore never fires, the `21 ...`
frame only extends an accumulator that is never flushed (there is no end-of-stream
flush), and both raw fragments are removed because their id is watched. -/
theorem C1_two_segment_eval :
    combine_tp_frames_uds [(100, c1_first), (101, c1_conseq)] [0x7E8] = .ok (some []) := rfl

/-- C2.  The claim says a single frame `00 AA BB` yields a synthesized frame `AA BB`.
The code raises `TypeError` instead: utils.py line 130 calls `construct_new_tp_frame`
with two arguments though its `can_id` parameter has no default. -/
theorem C2_single_frame_eval :
    combine_tp_frames_uds [(50, c2_single)] [0x7E8] = .error PyErr.typeError := rfl

/-- C3.  The claim says an identifier still accumulating when input ends is flushed,
yielding one synthesized frame.  The code has no end-of-stream flush: after the BAM
announce and one data frame the accumulator holds `AA BB`, yet the returned table
contains only the untouched announce row and no frame with the accumulated payload. -/
theorem C3_end_of_stream_eval :
    combine_tp_frames_j1939 [(10, c3_announce), (11, c3_data)] [800] 900
      = .ok (some [(10, c3_announce)]) ∧ c3_announce.DataBytes ≠ [0xAA, 0xBB] :=
  ⟨rfl, by decide⟩

/-- C4.  The claim says the output contains every synthesized frame of every watched
identifier.  Processing watched id 800 alone does synthesize `c4_synth_800`
(first conjunct), but with watched ids `[800, 801]` the 801 iteration rebuilds
`df_raw_combined` from scratch (utils.py line 163 assigns instead of accumulating), so
the returned table holds only 801's synthesized frame and `c4_synth_800` is lost
(second and third conjuncts). -/
theorem C4_overwrite_eval :
    combine_tp_frames_j1939
        [(10, c4_bam1), (11, c4_data1), (12, c4_bam2), (13, c4_data2), (14, c4_bam3)] [800] 900
      = .ok (some [(10, c4_bam1), (10, c4_synth_800), (12, c4_bam2), (13, c4_data2), (14, c4_bam3)]) ∧
    combine_tp_frames_j1939
        [(10, c4_bam1), (11, c4_data1), (12, c4_bam2), (13, c4_data2), (14, c4_bam3)] [800, 801] 900
      = .ok (some [(10, c4_bam1), (12, c4_bam2), (12, c4_synth_801), (14, c4_bam3)]) ∧
    ((10 : Nat), c4_synth_800) ∉
      [(10, c4_bam1), (12, c4_bam2), (12, c4_synth_801), (14, c4_bam3)] :=
  ⟨rfl, rfl, by decide⟩

/-- C5.  The claim says `combine_tp_frames` never raises and passes unmatched watched
frames through untouched.  The code raises `TypeError` as soon as the single-frame tag
matches (first conjunct, the two-argument call of utils.py line 130), and a watched
frame matching no tag is filtered out of the output rather than passed through
(second conjunct: the output is empty, not `[(21, c5_unmatched)]`). -/
theorem C5_single_raise_eval :
    combine_tp_frames_uds [(20, c5_single)] [0x7E8] = .error PyErr.typeError ∧
    combine_tp_frames_uds [(21, c5_unmatched)] [0x7E8] = .ok (some []) :=
  ⟨rfl, rfl⟩

/-- C6 counterexample.  The claim says the UDS single-frame tag is tested against the
high nibble, so any first byte with high nibble `0` — such as `05` — would classify as
a single frame.  In the code `SINGLE_FRAME_MASK = 0xFF`, so `05` fails the single-frame
test (second conjunct) although its high nibble is `0` (first conjunct); behaviourally,
a single-frame classification would raise `TypeError` (utils.py line 130), yet the `05`
frame is processed without error (third conjunct). -/
theorem C6_single_mask_counterexample :
    (0x05 &&& 0xF0 = 0x00) ∧
    ¬ (0x05 &&& uds_cfg.SINGLE_FRAME_MASK = uds_cfg.SINGLE_FRAME) ∧
    combine_tp_frames_uds [(30, c6_frame)] [0x7E8] = .ok (some []) :=
  ⟨by decide, by decide, rfl⟩

/-- C6 amended.  In the UDS preset the first-frame tag `0x10` and consecutive tag
`0x20` are tested against the high nibble (mask `0xF0`), but the single-frame tag
`0x00` is tested against the entire first byte (mask `0xFF`): a byte classifies as a
single frame exactly when it equals `0x00`.  First-frame payload starts at byte 2,
consecutive payload at byte 1, and no broadcast id is set. -/
theorem C6_uds_masks_amended :
    uds_cfg.SINGLE_FRAME_MASK = 0xFF ∧ uds_cfg.SINGLE_FRAME = 0x00 ∧
    uds_cfg.FIRST_FRAME_MASK = 0xF0 ∧ uds_cfg.FIRST_FRAME = 0x10 ∧
    uds_cfg.CONSEQ_FRAME_MASK = 0xF0 ∧ uds_cfg.CONSEQ_FRAME = 0x20 ∧
    uds_cfg.first_frame_payload_start = 2 ∧ uds_cfg.conseq_frame_payload_start = 1 ∧
    uds_cfg.bam_id_hex = none ∧
    (∀ b, b < 256 → ((b &&& uds_cfg.SINGLE_FRAME_MASK = uds_cfg.SINGLE_FRAME) ↔ b = 0)) ∧
    (∀ b, b < 256 → ((b &&& uds_cfg.FIRST_FRAME_MASK = uds_cfg.FIRST_FRAME) ↔ b / 16 = 1)) ∧
    (∀ b, b < 256 → ((b &&& uds_cfg.CONSEQ_FRAME_MASK = uds_cfg.CONSEQ_FRAME) ↔ b / 16 = 2)) := by
  refine ⟨rfl, rfl, rfl, rfl, rfl, rfl, rfl, rfl, rfl, ?_, ?_, ?_⟩ <;> decide

/-- C7.  A BAM announce whose payload bytes 5-7 are `00 FE 01` makes the synthesized
frame carry the reconstructed 29-bit arbitration id `(6 <<< 26) ||| (0x01FE00 <<< 8) ||| 254`:
the PGN `0x01FE00` is reassembled little-endian from the reversed byte slice.  The
sequence is flushed by the second announce; the synthesized frame sits at the first
announce's timestamp with the accumulated payload `09 09`. -/
theorem C7_pgn_reconstruction :
    combine_tp_frames_j1939 [(10, c7_announce), (11, c7_data), (12, c7_announce)] [800] 900
      = .ok (some [(10, c7_announce), (10, c7_synth), (12, c7_announce)]) ∧
    c7_synth.ID = (6 <<< 26) ||| (0x01FE00 <<< 8) ||| 254 :=
  ⟨rfl, rfl⟩

/-- C8.  The claim says every frame whose id is outside the watched set appears
byte-identical in the output.  When no watched identifier occurs in the input at all,
each response-id iteration hits `continue`, `df_raw_combined` keeps its initial empty
value, and the function returns an empty table: the unrelated frame is dropped. -/
theorem C8_unrelated_dropped_eval :
    c8_unrelated.ID ∉ [0x7E8] ∧
    combine_tp_frames_uds [(5, c8_unrelated)] [0x7E8] = .ok (some []) :=
  ⟨by decide, rfl⟩

/-- C9.  Whenever `combine_tp_frames` returns a frame table it has been passed through
`sort_index`, so its timestamps are non-decreasing, and `decode_tp_data` likewise sorts
its combined decoder output by timestamp before returning it. -/
theorem C9_outputs_sorted (cfg : TPConfig) (df_raw : FrameTable) (res_id_list : List Nat)
    (out : FrameTable) {β : Type} (t : FrameTable)
    (decode_frame : FrameTable → List (Nat × β))
    (hok : combine_tp_frames df_raw res_id_list cfg = .ok (some out)) :
    tsSorted out ∧ tsSorted (decode_tp_data t decode_frame) := by
  constructor
  · obtain ⟨acc, rfl⟩ := combine_tp_frames_ok_some cfg df_raw res_id_list out hok
    exact tsSorted_sort_index acc
  · unfold decode_tp_data
    exact tsSorted_sort_index _

/-- C9 witness: the sortedness theorem applied to a concrete run. -/
theorem C9_outputs_sorted_witness :
    combine_tp_frames [(7, c9w_frame), (8, c9w_unrel)] [2024] uds_cfg
      = .ok (some [(8, c9w_unrel)]) ∧
    (tsSorted [(8, c9w_unrel)] ∧
      tsSorted (decode_tp_data [(7, c9w_frame)] (fun g => g.map (fun r => (r.1, r.2.ID))))) :=
  ⟨rfl, C9_outputs_sorted uds_cfg [(7, c9w_frame), (8, c9w_unrel)] [2024] [(8, c9w_unrel)]
    [(7, c9w_frame)] (fun g => g.map (fun r => (r.1, r.2.ID))) rfl⟩

/-- C10 counterexample.  The claim says `construct_new_tp_frame` leaves its template
argument unchanged.  It does not: `new_frame = base_frame` aliases the template, so
after the call the template object differs from its original value. -/
theorem C10_counterexample :
    (construct_new_tp_frame c10_base [1, 2] none).2 ≠ c10_base := by decide

/-- C10 amended.  `construct_new_tp_frame` mutates its template in place: the template
object after the call is the returned frame itself; the returned frame carries the
accumulated payload, a declared length equal to the accumulated byte count, a zeroed
DLC, the template's other columns, and the arbitration id is overwritten exactly when a
truthy (non-`None`, non-zero) `can_id` was supplied. -/
theorem C10_synthesizer_fields (b : Frame) (p : List Nat) (c : Option Nat) :
    (construct_new_tp_frame b p c).2 = (construct_new_tp_frame b p c).1 ∧
    (construct_new_tp_frame b p c).1.DataBytes = p ∧
    (construct_new_tp_frame b p c).1.DLC = 0 ∧
    (construct_new_tp_frame b p c).1.DataLength = p.length ∧
    (construct_new_tp_frame b p c).1.BusChannel = b.BusChannel ∧
    (construct_new_tp_frame b p c).1.ID =
      (match c with
       | none => b.ID
       | some cid => if cid = 0 then b.ID else cid) := by
  cases c with
  | none => exact ⟨rfl, rfl, rfl, rfl, rfl, rfl⟩
  | some cid =>
    by_cases h : cid = 0
    · simp [construct_new_tp_frame, h]
    · simp [construct_new_tp_frame, h]
